import Mathlib

/-!
Verification of the registry client contract of scarb
(`src/scarb/src/core/registry/client/mod.rs`).

The source file defines:
  * `RegistryResource<T>` — the three-variant result protocol of every
    fetch (lines 13–26);
  * the callback type aliases `BeforeNetworkCallback` and
    `CreateScratchFileCallback` (lines 28–29);
  * the `RegistryClient` trait with `get_records`, `download`,
    `supports_publish` (default body `Ok(false)`, lines 83–85) and
    `publish` (default body `unreachable!`, lines 95–100), together with
    the doc-comment contract on the two callbacks (lines 37–41, 58–62).

The concrete backends (`cache`, `http`, `local`) are declared as
submodules but their code is not part of this fragment, so behaviour
that only they decide is modelled from the specification; such
definitions carry a doc comment starting with `Modelled from the spec:`.

Executions of a client operation are embedded as a `Run`: the ordered
trace of observable events (callback invocations, network requests)
together with the returned value.  The doc-comment contract of the
trait is formalised as the predicate `ContractOk` over a run and the
value the `before_network` callback would return when invoked.
-/

/-- Errors are opaque (`anyhow::Result` in the source); a string models an
opaque propagating failure value. -/
abbrev Err := String

/-- Package name within a registry namespace (opaque in this layer). -/
abbrev PackageName := String

/-- A package name plus a resolved version, identifying one artifact. -/
structure PackageId where
  name : PackageName
  version : String
deriving DecidableEq, Repr

/-- A fully resolved package descriptor offered for publish (opaque here). -/
structure Package where
  id : PackageId
deriving DecidableEq, Repr

/-- Shared read-only configuration handle (opaque in this layer). -/
structure Config where
  cacheDir : String
deriving DecidableEq, Repr

/-- Scoped exclusive file handle guarding a scratch file (opaque here). -/
structure FileLockGuard where
  path : String
deriving DecidableEq, Repr

/-- Index records for one package name (opaque payload of `get_records`). -/
abbrev IndexRecords := List String

/-- `RegistryResource<T>` from the source, lines 13–26: result of loading
data from a registry.  `NotFound` and `InCache` carry no payload;
`Download` carries the fresh resource and an optional opaque cache key,
where `none` means the result is not cacheable. -/
inductive RegistryResource (T : Type)
  | NotFound
  | InCache
  | Download (resource : T) (cache_key : Option String)
deriving DecidableEq, Repr

/-- Observable events during one client operation, in order of occurrence:
invocation of the `before_network` callback, an actual network request,
and invocation of the `create_scratch_file` callback. -/
inductive Event
  | beforeNetwork
  | networkRequest
  | createScratchFile
deriving DecidableEq, Repr

deriving instance DecidableEq for Except

/-- One execution of a client operation: the ordered event trace and the
returned `Result` value. -/
structure Run (T : Type) where
  trace : List Event
  result : Except Err T
deriving DecidableEq, Repr

/-- The doc-comment contract of `get_records` / `download`
(source lines 37–41 and 58–62), as a predicate over the value `bn` the
`before_network` callback returns when invoked and a run `r`:

1. each callback is `FnOnce` (lines 28–29), hence occurs at most once in
   the trace;
2. no network request happens before `before_network` has been invoked
   ("must be called right before doing actual network requests"), and a
   client that performs a network request has invoked it;
3. if the callback was invoked and returned an error, that error is
   "immediately bubbled out": nothing follows the invocation in the
   trace and the run returns exactly that error; if the callback was
   invoked and succeeded, the client does perform a network request
   ("if this client does not perform network requests, this callback
   must not be called at all"). -/
def ContractOk {T : Type} (bn : Except Err Unit) (r : Run T) : Prop :=
  r.trace.count .beforeNetwork ≤ 1 ∧
  r.trace.count .createScratchFile ≤ 1 ∧
  .networkRequest ∉ r.trace.takeWhile (fun e => e ≠ .beforeNetwork) ∧
  (match bn with
   | .error e => .beforeNetwork ∈ r.trace →
       r.trace.dropWhile (fun e => e ≠ .beforeNetwork) = [.beforeNetwork] ∧
       r.result = .error e
   | .ok _ => .beforeNetwork ∈ r.trace → .networkRequest ∈ r.trace)

/-- Default body of `RegistryClient::supports_publish` (source lines
83–85): returns `Ok(false)`; the body performs no effect, so its trace
is empty. -/
def supports_publish_default : Run Bool :=
  { trace := [], result := .ok false }

/-- Possible outcomes of `publish`: an `Ok` value, a recoverable error
value, or a fatal fault (a Rust panic). -/
inductive POutcome (α : Type)
  | ok (a : α)
  | err (e : Err)
  | panic (msg : String)
deriving DecidableEq, Repr

/-- Default body of `RegistryClient::publish` (source lines 95–100):
ignores both arguments and hits `unreachable!` with this message. -/
def publish_default (package : Package) (tarball : FileLockGuard) :
    POutcome Unit :=
  let _ := package
  let _ := tarball
  .panic "This registry does not support publishing."

/-- Modelled from the spec: the state of a remote registry as observed
over one or more requests (the concrete HTTP backend `client/http.rs` is
not part of this fragment).  `records` and `archive` map identities to
contents; `recordsKey` and `archiveKey` are the opaque, backend-issued
cache keys ("an opaque token (backend-defined) that the caller stores
and replays on the next request"). -/
structure Server where
  records : PackageName → Option IndexRecords
  recordsKey : PackageName → String
  archive : PackageId → Option FileLockGuard
  archiveKey : PackageId → String

/-- Modelled from the spec: `get_records` of a conditional-fetch network
backend (`client/http.rs` is absent from this fragment).  Per the spec,
a network backend must "support conditional fetch semantics compatible
with the opaque cache-key round-trip": it invokes `before_network`,
bubbles its failure out immediately, performs the network request, and
answers `NotFound` for an unknown package, `InCache` when the supplied
cache key still matches the backend-issued one, and `Download` with the
fresh records and the current key otherwise. -/
def conditionalGetRecords (srv : Server) (pkg : PackageName)
    (cacheKey : Option String) (bn : Except Err Unit) :
    Run (RegistryResource IndexRecords) :=
  match bn with
  | .error e => { trace := [.beforeNetwork], result := .error e }
  | .ok _ =>
    match srv.records pkg with
    | none =>
      { trace := [.beforeNetwork, .networkRequest], result := .ok .NotFound }
    | some recs =>
      if cacheKey = some (srv.recordsKey pkg) then
        { trace := [.beforeNetwork, .networkRequest], result := .ok .InCache }
      else
        { trace := [.beforeNetwork, .networkRequest],
          result := .ok (.Download recs (some (srv.recordsKey pkg))) }

/-- Modelled from the spec: `download` of a conditional-fetch network
backend (`client/http.rs` is absent from this fragment).  Same
`before_network` discipline as `conditionalGetRecords`; when fresh bytes
must be persisted it invokes `create_scratch_file`, propagates its
failure, and otherwise returns the written scratch file handle. -/
def conditionalDownload (srv : Server) (pkg : PackageId)
    (cacheKey : Option String) (bn : Except Err Unit)
    (csf : Config → Except Err FileLockGuard) (cfg : Config) :
    Run (RegistryResource FileLockGuard) :=
  match bn with
  | .error e => { trace := [.beforeNetwork], result := .error e }
  | .ok _ =>
    match srv.archive pkg with
    | none =>
      { trace := [.beforeNetwork, .networkRequest], result := .ok .NotFound }
    | some _ =>
      if cacheKey = some (srv.archiveKey pkg) then
        { trace := [.beforeNetwork, .networkRequest], result := .ok .InCache }
      else
        match csf cfg with
        | .error e =>
          { trace := [.beforeNetwork, .networkRequest, .createScratchFile],
            result := .error e }
        | .ok f =>
          { trace := [.beforeNetwork, .networkRequest, .createScratchFile],
            result := .ok (.Download f (some (srv.archiveKey pkg))) }

/-- Modelled from the spec: `get_records` of a purely local backend
(`client/local.rs` is absent from this fragment).  "A purely local
backend" performs no network access, so `before_network` "must not be
invoked at all"; its results are not cacheable (`cache_key` is `none`),
and it never answers `InCache`. -/
def localGetRecords (fs : PackageName → Option IndexRecords)
    (pkg : PackageName) (cacheKey : Option String) (bn : Except Err Unit) :
    Run (RegistryResource IndexRecords) :=
  let _ := cacheKey
  let _ := bn
  match fs pkg with
  | none => { trace := [], result := .ok .NotFound }
  | some recs => { trace := [], result := .ok (.Download recs none) }

/-- Modelled from the spec: `download` of a purely local backend
(`client/local.rs` is absent from this fragment).  The archive already
exists on disk, so no network access, no `before_network` invocation and
no scratch file are needed. -/
def localDownload (fs : PackageId → Option FileLockGuard) (pkg : PackageId)
    (cacheKey : Option String) (bn : Except Err Unit)
    (csf : Config → Except Err FileLockGuard) (cfg : Config) :
    Run (RegistryResource FileLockGuard) :=
  let _ := cacheKey
  let _ := bn
  let _ := csf
  let _ := cfg
  match fs pkg with
  | none => { trace := [], result := .ok .NotFound }
  | some f => { trace := [], result := .ok (.Download f none) }

/-- The `before_network` callback value (source line 28): a boxed
`FnOnce` closure.  Moving out of the box on invocation is modelled by
the consume-on-invoke state below: `fn` is `some` while the callback has
not been consumed yet and `none` afterwards. -/
structure BeforeNetworkCallback where
  fn : Option (Unit → Except Err Unit)

/-- Invoking a single-use callback: succeeds exactly once, returning the
callback's result and the consumed (empty) state; on a consumed callback
there is no invocation to perform. -/
def BeforeNetworkCallback.invoke (c : BeforeNetworkCallback) :
    Option (Except Err Unit × BeforeNetworkCallback) :=
  match c.fn with
  | some f => some (f (), ⟨none⟩)
  | none => none

/-- The `create_scratch_file` callback value (source line 29): a boxed
`FnOnce` closure from a shared `&Config` to `Result<FileLockGuard>`,
modelled with the same consume-on-invoke state. -/
structure CreateScratchFileCallback where
  fn : Option (Config → Except Err FileLockGuard)

/-- Invoking the single-use scratch-file callback on a configuration
handle: succeeds exactly once, afterwards there is no invocation. -/
def CreateScratchFileCallback.invoke (c : CreateScratchFileCallback)
    (cfg : Config) : Option (Except Err FileLockGuard × CreateScratchFileCallback) :=
  match c.fn with
  | some f => some (f cfg, ⟨none⟩)
  | none => none

instance {T : Type} [DecidableEq T] (bn : Except Err Unit) (r : Run T) :
    Decidable (ContractOk bn r) := by
  unfold ContractOk
  cases bn <;> exact inferInstance

/-- A concrete registry state used to evaluate the modelled clients on
closed inputs: it serves one package, `foo` version `1.0.0`, with
records key `v1` and archive key `a1`. -/
def srvEx : Server where
  records := fun p => if p = "foo" then some ["1.0.0"] else none
  recordsKey := fun _ => "v1"
  archive := fun i => if i = ⟨"foo", "1.0.0"⟩ then some ⟨"/cache/foo.tar.zst"⟩ else none
  archiveKey := fun _ => "a1"

/-- Every run of the modelled conditional-fetch `get_records` satisfies
the trait's doc-comment contract. -/
theorem contractOk_conditionalGetRecords (srv : Server) (pkg : PackageName)
    (ck : Option String) (bn : Except Err Unit) :
    ContractOk bn (conditionalGetRecords srv pkg ck bn) := by
  cases bn with
  | error e => simp [ContractOk, conditionalGetRecords]
  | ok u =>
    cases h : srv.records pkg with
    | none => simp [ContractOk, conditionalGetRecords, h]
    | some recs =>
      by_cases hk : ck = some (srv.recordsKey pkg) <;>
        simp [ContractOk, conditionalGetRecords, h, hk]

/-- Every run of the modelled conditional-fetch `download` satisfies
the trait's doc-comment contract. -/
theorem contractOk_conditionalDownload (srv : Server) (pkg : PackageId)
    (ck : Option String) (bn : Except Err Unit)
    (csf : Config → Except Err FileLockGuard) (cfg : Config) :
    ContractOk bn (conditionalDownload srv pkg ck bn csf cfg) := by
  cases bn with
  | error e => simp [ContractOk, conditionalDownload]
  | ok u =>
    cases h : srv.archive pkg with
    | none => simp [ContractOk, conditionalDownload, h]
    | some f =>
      by_cases hk : ck = some (srv.archiveKey pkg)
      · simp [ContractOk, conditionalDownload, h, hk]
      · cases hc : csf cfg <;>
          simp [ContractOk, conditionalDownload, h, hk, hc]

/-- Every run of the modelled local `get_records` satisfies the trait's
doc-comment contract (it never touches the network nor the callback). -/
theorem contractOk_localGetRecords (fs : PackageName → Option IndexRecords)
    (pkg : PackageName) (ck : Option String) (bn : Except Err Unit) :
    ContractOk bn (localGetRecords fs pkg ck bn) := by
  cases h : fs pkg <;> cases bn <;> simp [ContractOk, localGetRecords, h]

/-- Every run of the modelled local `download` satisfies the trait's
doc-comment contract. -/
theorem contractOk_localDownload (fs : PackageId → Option FileLockGuard)
    (pkg : PackageId) (ck : Option String) (bn : Except Err Unit)
    (csf : Config → Except Err FileLockGuard) (cfg : Config) :
    ContractOk bn (localDownload fs pkg ck bn csf cfg) := by
  cases h : fs pkg <;> cases bn <;> simp [ContractOk, localDownload, h]

/-- Claim C1, counterexample: a contract-conforming conditional-fetch
run (the semantics the spec itself requires of a network backend, and
the behaviour of an HTTP 304 "Not Modified" response) returns `InCache`
even though `before_network` was invoked during the call: the cache key
is only validated by asking the server.  So an `InCache` result does
not imply that the callback was never invoked. -/
theorem inCache_with_callback_counterexample :
    ContractOk (Except.ok ())
      (conditionalGetRecords srvEx "foo" (some "v1") (Except.ok ())) ∧
    (conditionalGetRecords srvEx "foo" (some "v1") (Except.ok ())).result =
      Except.ok RegistryResource.InCache ∧
    Event.beforeNetwork ∈
      (conditionalGetRecords srvEx "foo" (some "v1") (Except.ok ())).trace := by
  refine ⟨by decide, by decide, by decide⟩

/-- Claim C1 (amended): for every contract-conforming run of
`get_records` or `download`, if the result is `InCache` and no network
request was performed during the call, then the `before_network`
callback was never invoked during that call. -/
theorem inCache_without_network_implies_no_callback {α : Type}
    (bn : Except Err Unit) (r : Run (RegistryResource α))
    (h : ContractOk bn r) (hres : r.result = .ok .InCache)
    (hnet : .networkRequest ∉ r.trace) : .beforeNetwork ∉ r.trace := by
  intro hmem
  obtain ⟨h1, h2, h3, h4⟩ := h
  cases bn with
  | ok u => exact hnet (h4 hmem)
  | error e =>
    obtain ⟨hdrop, herr⟩ := h4 hmem
    rw [herr] at hres
    exact Except.noConfusion hres

/-- Claim C1, witness: a network-free cache-validating run. -/
theorem inCache_without_network_implies_no_callback_witness :
    Event.beforeNetwork ∉
      ({ trace := [], result := .ok .InCache } :
        Run (RegistryResource IndexRecords)).trace :=
  inCache_without_network_implies_no_callback (Except.ok ()) _
    (by decide) (by decide) (by decide)

/-- Claim C2: for every contract-conforming run of `get_records` or
`download`, if the `before_network` callback was invoked and returned
the failure `e`, then no network request was performed during the call
and the operation returns exactly that failure `e`. -/
theorem before_network_failure_aborts {α : Type}
    (bn : Except Err Unit) (r : Run (RegistryResource α)) (e : Err)
    (h : ContractOk bn r) (hmem : .beforeNetwork ∈ r.trace)
    (hbn : bn = .error e) :
    .networkRequest ∉ r.trace ∧ r.result = .error e := by
  subst hbn
  obtain ⟨h1, h2, h3, h4⟩ := h
  obtain ⟨hdrop, herr⟩ := h4 hmem
  refine ⟨?_, herr⟩
  intro hn
  rw [← List.takeWhile_append_dropWhile (fun x => x ≠ Event.beforeNetwork) r.trace] at hn
  rcases List.mem_append.1 hn with hpre | hpost
  · exact h3 hpre
  · rw [hdrop] at hpost
    simp at hpost

/-- Claim C2, witness: the modelled conditional client with a failing
callback aborts with that exact failure and performs no request. -/
theorem before_network_failure_aborts_witness :
    Event.networkRequest ∉
      (conditionalGetRecords srvEx "foo" none (Except.error "offline")).trace ∧
    (conditionalGetRecords srvEx "foo" none (Except.error "offline")).result =
      Except.error "offline" :=
  before_network_failure_aborts (Except.error "offline") _ "offline"
    (by decide) (by decide) rfl

/-- Claim C3: for every package and tarball handle, the default
`publish` body is an unconditional `unreachable!` panic — a fatal
fault, never a recoverable `Err` value and never an `Ok`. -/
theorem publish_default_unreachable_panic (package : Package)
    (tarball : FileLockGuard) :
    publish_default package tarball =
      .panic "This registry does not support publishing." ∧
    (∀ e, publish_default package tarball ≠ .err e) ∧
    (∀ u, publish_default package tarball ≠ .ok u) :=
  ⟨rfl, fun e => by simp [publish_default], fun u => by simp [publish_default]⟩

/-- Claim C3, witness: the default `publish` at a concrete package and
tarball. -/
theorem publish_default_unreachable_panic_witness :
    publish_default ⟨⟨"foo", "1.0.0"⟩⟩ ⟨"/tmp/foo.tar.zst"⟩ =
      .panic "This registry does not support publishing." :=
  (publish_default_unreachable_panic ⟨⟨"foo", "1.0.0"⟩⟩ ⟨"/tmp/foo.tar.zst"⟩).1

/-- Claim C4: `RegistryResource<T>` has exactly the three variants
`NotFound` (no payload), `InCache` (no payload) and
`Download {resource, cache_key}`: every value is one of the three, the
three are pairwise distinct, and `Download` determines its payload. -/
theorem registryResource_exactly_three_variants :
    (∀ (T : Type) (x : RegistryResource T),
       x = .NotFound ∨ x = .InCache ∨ ∃ r k, x = .Download r k) ∧
    (∀ (T : Type), (RegistryResource.NotFound : RegistryResource T) ≠ .InCache) ∧
    (∀ (T : Type) (r : T) k, RegistryResource.NotFound ≠ RegistryResource.Download r k) ∧
    (∀ (T : Type) (r : T) k, RegistryResource.InCache ≠ RegistryResource.Download r k) ∧
    (∀ (T : Type) (r r' : T) k k',
       RegistryResource.Download r k = RegistryResource.Download r' k' →
       r = r' ∧ k = k') := by
  refine ⟨?_, ?_, ?_, ?_, ?_⟩
  · intro T x
    cases x with
    | NotFound => exact Or.inl rfl
    | InCache => exact Or.inr (Or.inl rfl)
    | Download r k => exact Or.inr (Or.inr ⟨r, k, rfl⟩)
  · intro T h
    exact RegistryResource.noConfusion h
  · intro T r k h
    exact RegistryResource.noConfusion h
  · intro T r k h
    exact RegistryResource.noConfusion h
  · intro T r r' k k' h
    injection h with h1 h2
    exact ⟨h1, h2⟩

/-- Claim C4, witness: the exhaustiveness part at a concrete value. -/
theorem registryResource_exactly_three_variants_witness :
    (RegistryResource.NotFound : RegistryResource Nat) = .NotFound ∨
    (RegistryResource.NotFound : RegistryResource Nat) = .InCache ∨
    ∃ r k, (RegistryResource.NotFound : RegistryResource Nat) = .Download r k :=
  registryResource_exactly_three_variants.1 Nat .NotFound

/-- Claim C5: the default `supports_publish` body returns `Ok(false)`:
it never returns an error and its (empty) trace shows no network
access. -/
theorem supports_publish_default_ok_false :
    supports_publish_default.result = Except.ok false ∧
    supports_publish_default.trace = [] ∧
    (∀ e, supports_publish_default.result ≠ Except.error e) ∧
    Event.networkRequest ∉ supports_publish_default.trace :=
  ⟨rfl, rfl, fun e => by simp [supports_publish_default], by decide⟩

/-- Claim C5, witness: the never-an-error part at a concrete error. -/
theorem supports_publish_default_ok_false_witness :
    supports_publish_default.result ≠ Except.error "boom" :=
  supports_publish_default_ok_false.2.2.1 "boom"

/-- Claim C6: none of the modelled backends ever answers `InCache`
unless the caller supplied a non-empty cache key: the local clients
never answer `InCache` at all, and the conditional-fetch clients (whose
backend-issued keys are non-empty) never answer `InCache` to a call
whose cache key is absent or empty. -/
theorem no_inCache_without_nonempty_cache_key :
    (∀ fs pkg ck bn, (localGetRecords fs pkg ck bn).result ≠ .ok .InCache) ∧
    (∀ fs pkg ck bn csf cfg,
       (localDownload fs pkg ck bn csf cfg).result ≠ .ok .InCache) ∧
    (∀ srv pkg ck bn, (∀ p, srv.recordsKey p ≠ "") →
       (ck = none ∨ ck = some "") →
       (conditionalGetRecords srv pkg ck bn).result ≠ .ok .InCache) ∧
    (∀ srv pkg ck bn csf cfg, (∀ i, srv.archiveKey i ≠ "") →
       (ck = none ∨ ck = some "") →
       (conditionalDownload srv pkg ck bn csf cfg).result ≠ .ok .InCache) := by
  refine ⟨?_, ?_, ?_, ?_⟩
  · intro fs pkg ck bn
    cases h : fs pkg <;> simp [localGetRecords, h]
  · intro fs pkg ck bn csf cfg
    cases h : fs pkg <;> simp [localDownload, h]
  · intro srv pkg ck bn hkey hck
    cases bn with
    | error e => simp [conditionalGetRecords]
    | ok u =>
      cases h : srv.records pkg with
      | none => simp [conditionalGetRecords, h]
      | some recs =>
        have hne : ck ≠ some (srv.recordsKey pkg) := by
          rcases hck with rfl | rfl
          · simp
          · intro hc
            injection hc with h'
            exact hkey pkg h'.symm
        simp [conditionalGetRecords, h, hne]
  · intro srv pkg ck bn csf cfg hkey hck
    cases bn with
    | error e => simp [conditionalDownload]
    | ok u =>
      cases h : srv.archive pkg with
      | none => simp [conditionalDownload, h]
      | some f =>
        have hne : ck ≠ some (srv.archiveKey pkg) := by
          rcases hck with rfl | rfl
          · simp
          · intro hc
            injection hc with h'
            exact hkey pkg h'.symm
        cases hc : csf cfg <;> simp [conditionalDownload, h, hne, hc]

/-- Claim C6, witness: the conditional client called without a cache
key does not answer `InCache`. -/
theorem no_inCache_without_nonempty_cache_key_witness :
    (conditionalGetRecords srvEx "foo" none (Except.ok ())).result ≠
      Except.ok RegistryResource.InCache :=
  no_inCache_without_nonempty_cache_key.2.2.1 srvEx "foo" none (Except.ok ())
    (fun p => (by decide : ("v1" : String) ≠ "")) (Or.inl rfl)

/-- Claim C7: in the modelled `download` implementations the
`create_scratch_file` callback is invoked only when a new archive must
be written: a run answering `NotFound` or `InCache` never carries a
`createScratchFile` event, and the local client never creates one at
all. -/
theorem scratch_file_not_created_for_notFound_inCache :
    (∀ srv pkg ck bn csf cfg,
       ((conditionalDownload srv pkg ck bn csf cfg).result = .ok .NotFound ∨
        (conditionalDownload srv pkg ck bn csf cfg).result = .ok .InCache) →
       .createScratchFile ∉ (conditionalDownload srv pkg ck bn csf cfg).trace) ∧
    (∀ fs pkg ck bn csf cfg,
       .createScratchFile ∉ (localDownload fs pkg ck bn csf cfg).trace) := by
  constructor
  · intro srv pkg ck bn csf cfg hres
    cases bn with
    | error e => simp [conditionalDownload]
    | ok u =>
      cases h : srv.archive pkg with
      | none => simp [conditionalDownload, h]
      | some f =>
        by_cases hk : ck = some (srv.archiveKey pkg)
        · simp [conditionalDownload, h, hk]
        · cases hc : csf cfg <;>
            simp [conditionalDownload, h, hk, hc] at hres
  · intro fs pkg ck bn csf cfg
    cases h : fs pkg <;> simp [localDownload, h]

/-- Claim C7, witness: a `NotFound` download run creates no scratch
file. -/
theorem scratch_file_not_created_for_notFound_inCache_witness :
    Event.createScratchFile ∉
      (conditionalDownload srvEx ⟨"bar", "1"⟩ none (Except.ok ())
        (fun _ => Except.ok ⟨"/tmp/scratch"⟩) ⟨"/cache"⟩).trace :=
  scratch_file_not_created_for_notFound_inCache.1 srvEx ⟨"bar", "1"⟩ none
    (Except.ok ()) (fun _ => Except.ok ⟨"/tmp/scratch"⟩) ⟨"/cache"⟩
    (Or.inl (by decide))

/-- Claim C8: round-trip over an unchanged backend — if `get_records`
with no cache key answers `Download` with cache key `k`, then the same
call with exactly `k` against the same backend state answers
`InCache`. -/
theorem get_records_cache_key_round_trip (srv : Server)
    (pkg : PackageName) (recs : IndexRecords) (k : String)
    (h : (conditionalGetRecords srv pkg none (.ok ())).result =
      .ok (.Download recs (some k))) :
    (conditionalGetRecords srv pkg (some k) (.ok ())).result =
      .ok .InCache := by
  cases hr : srv.records pkg with
  | none => simp [conditionalGetRecords, hr] at h
  | some recs' =>
    have hk : k = srv.recordsKey pkg := by
      simp [conditionalGetRecords, hr] at h
      exact h.2.symm
    simp [conditionalGetRecords, hr, hk]

/-- Claim C8, witness: the round-trip on the concrete backend state. -/
theorem get_records_cache_key_round_trip_witness :
    (conditionalGetRecords srvEx "foo" (some "v1") (Except.ok ())).result =
      Except.ok RegistryResource.InCache :=
  get_records_cache_key_round_trip srvEx "foo" ["1.0.0"] "v1" (by decide)

/-- Claim C9: both callbacks are single-use, consumed by the first
invocation: once an invocation has happened, the consumed callback
state admits no second invocation. -/
theorem callbacks_single_use :
    (∀ (c c' : BeforeNetworkCallback) v,
       c.invoke = some (v, c') → c'.invoke = none) ∧
    (∀ (c c' : CreateScratchFileCallback) cfg cfg' res,
       c.invoke cfg = some (res, c') → c'.invoke cfg' = none) := by
  constructor
  · intro c c' v h
    cases c with
    | mk fn =>
      cases fn with
      | none => exact Option.noConfusion h
      | some f =>
        have h' : (⟨none⟩ : BeforeNetworkCallback) = c' := by
          simp [BeforeNetworkCallback.invoke] at h
          exact h.2
        rw [← h']
        rfl
  · intro c c' cfg cfg' res h
    cases c with
    | mk fn =>
      cases fn with
      | none => exact Option.noConfusion h
      | some f =>
        have h' : (⟨none⟩ : CreateScratchFileCallback) = c' := by
          simp [CreateScratchFileCallback.invoke] at h
          exact h.2
        rw [← h']
        rfl

/-- Claim C9, witness: invoking a concrete callback once leaves a state
with no further invocation. -/
theorem callbacks_single_use_witness :
    BeforeNetworkCallback.invoke ⟨none⟩ = none :=
  callbacks_single_use.1 ⟨some fun _ => Except.ok ()⟩ ⟨none⟩ (Except.ok ()) rfl

/-- Claim C10: in the modelled conditional `download`, when the
`create_scratch_file` callback fails with `e`, any run that invoked it
returns exactly `e`, and no run returns a `Download` carrying a file
handle. -/
theorem scratch_file_failure_propagates (srv : Server) (pkg : PackageId)
    (ck : Option String) (bn : Except Err Unit)
    (csf : Config → Except Err FileLockGuard) (cfg : Config) (e : Err)
    (hcsf : csf cfg = .error e) :
    (.createScratchFile ∈ (conditionalDownload srv pkg ck bn csf cfg).trace →
      (conditionalDownload srv pkg ck bn csf cfg).result = .error e) ∧
    (∀ f k, (conditionalDownload srv pkg ck bn csf cfg).result ≠
      .ok (.Download f k)) := by
  cases bn with
  | error e' => simp [conditionalDownload]
  | ok u =>
    cases h : srv.archive pkg with
    | none => simp [conditionalDownload, h]
    | some f =>
      by_cases hk : ck = some (srv.archiveKey pkg)
      · simp [conditionalDownload, h, hk]
      · simp [conditionalDownload, h, hk, hcsf]

/-- Claim C10, witness: a failing scratch-file callback on the concrete
backend aborts the download with that failure. -/
theorem scratch_file_failure_propagates_witness :
    (Event.createScratchFile ∈
      (conditionalDownload srvEx ⟨"foo", "1.0.0"⟩ none (Except.ok ())
        (fun _ => Except.error "disk full") ⟨"/cache"⟩).trace →
      (conditionalDownload srvEx ⟨"foo", "1.0.0"⟩ none (Except.ok ())
        (fun _ => Except.error "disk full") ⟨"/cache"⟩).result =
        Except.error "disk full") ∧
    (∀ f k, (conditionalDownload srvEx ⟨"foo", "1.0.0"⟩ none (Except.ok ())
        (fun _ => Except.error "disk full") ⟨"/cache"⟩).result ≠
      Except.ok (RegistryResource.Download f k)) :=
  scratch_file_failure_propagates srvEx ⟨"foo", "1.0.0"⟩ none (Except.ok ())
    (fun _ => Except.error "disk full") ⟨"/cache"⟩ "disk full" rfl
